import Mathlib

set_option maxRecDepth 16384

/-!
Verification of the EPUB package-assembly engine (narou-epub) against its
specification.  The definitions below are shallow embeddings of the Rust
sources under `src/epub/`: `id.rs` (identifier allocator), `time.rs`
(timestamp parsing/conversion/formatting), `escape.rs` (XML escaping) and
`mod.rs` (package model, manifest/spine/navigation builders, container
write sequencing).
-/

namespace NarouEpub

/-! ### Identifier allocator (`src/epub/id.rs`) -/

/-- `ItemId::FIRST_LETTER`: letters only, upper then lower (52 symbols). -/
def itemFirstLetter : List Char :=
  "ABCDEFGHIJKLMNOPQRSTUVWXYZabcdefghijklmnopqrstuvwxyz".data

/-- `ItemId::LETTER`: digits then letters (62 symbols). -/
def itemLetter : List Char :=
  "0123456789ABCDEFGHIJKLMNOPQRSTUVWXYZabcdefghijklmnopqrstuvwxyz".data

/-- `NameId::FIRST_LETTER`: digits then lowercase (36 symbols). -/
def nameFirstLetter : List Char := "0123456789abcdefghijklmnopqrstuvwxyz".data

/-- `NameId::LETTER`: digits then lowercase (36 symbols). -/
def nameLetter : List Char := "0123456789abcdefghijklmnopqrstuvwxyz".data

/-- The `while n != 0` loop of `impl Display for Id<T>` (`id.rs` lines
67-70): emit `LETTER[n % LETTER.len()]`, then divide `n` by the literal
`62` (the source divides by `62`, not by `LETTER.len()`).  The first
argument is fuel; `n/62 < n` for `n ≠ 0`, so fuel `n` always suffices. -/
def idLoopF (letters : List Char) : Nat → Nat → List Char
  | 0, _ => []
  | fuel + 1, n =>
      if n = 0 then []
      else letters.getD (n % letters.length) ' ' :: idLoopF letters fuel (n / 62)

/-- The continuation-character loop of `impl Display for Id<T>`. -/
def idLoop (letters : List Char) (n : Nat) : List Char := idLoopF letters n n

/-- `impl Display for Id<T>` (`id.rs` lines 62-73): emit
`FIRST_LETTER[n % FIRST_LETTER.len()]`, set `n /= FIRST_LETTER.len()`,
then run the continuation loop. -/
def renderId (first letters : List Char) (n : Nat) : List Char :=
  first.getD (n % first.length) ' ' :: idLoop letters (n / first.length)

/-- Rendering of a `NameId` counter value as a string. -/
def nameIdRender (n : Nat) : String :=
  String.mk (renderId nameFirstLetter nameLetter n)

/-- Rendering of an `ItemId` counter value as a string. -/
def itemIdRender (n : Nat) : String :=
  String.mk (renderId itemFirstLetter itemLetter n)

/-! ### XML escaping (`src/epub/escape.rs`) -/

/-- The per-character replacement of `Escape::escape`. -/
def escChar (c : Char) : List Char :=
  match c with
  | '&' => "&amp;".data
  | '"' => "&quot;".data
  | '<' => "&lt;".data
  | '>' => "&gt;".data
  | c => [c]

/-- The accumulator loop of `Escape::escape` (`escape.rs` lines 6-18):
fold over the characters, appending each replacement to the string
built so far. -/
def escapeList (cs : List Char) : List Char :=
  cs.foldl (fun acc c => acc ++ escChar c) []

/-- `Escape::escape` on strings. -/
def escape (s : String) : String := String.mk (escapeList s.data)

/-! ### Timestamp conversion (`src/epub/time.rs`) -/

/-- `time::Error`. -/
inductive TError where
  | unexpectedChar
  | earlyTermination
  | unexpectedRange
deriving DecidableEq, Repr

/-- `time::Time` (field values; the Rust struct stores `u16`/`u8`, all
values produced are far below those bounds). -/
structure Time where
  year : Nat
  month : Nat
  day : Nat
  hour : Nat
  minute : Nat
  second : Nat
deriving DecidableEq, Repr

/-- `is_leap_year` (`time.rs` line 53). -/
def isLeapYear (y : Nat) : Bool :=
  y % 400 == 0 || (y % 4 == 0 && y % 100 != 0)

/-- `DAYS_IN_MONTH` (`time.rs` line 57). -/
def daysInMonth : List Nat := [31, 28, 31, 30, 31, 30, 31, 31, 30, 31, 30, 31]

/-- The validation condition of `Time::new` (`time.rs` lines 80-87). -/
def validTime (y mo d h mi s : Nat) : Bool :=
  1970 ≤ y && y ≤ 9999 &&
  (1 ≤ mo && mo ≤ 12) &&
  (1 ≤ d && d ≤ daysInMonth.getD (mo - 1) 0 +
      (if isLeapYear y && mo == 2 then 1 else 0)) &&
  h ≤ 23 && mi ≤ 59 &&
  s ≤ 59 + (if h == 23 && mi == 59 then 1 else 0)

/-- `Time::new` (`time.rs` lines 79-121): validate the local (JST)
fields, then subtract the 9-hour offset with manual borrow
propagation.  A day borrow indexes `DAYS_IN_MONTH[(month + 10) % 12]`
and adds one when the previous month is a leap February. -/
def Time.new (y mo d h mi s : Nat) : Except TError Time :=
  if validTime y mo d h mi s then
    let hour2 := if 9 ≤ h then h - 9 else h + 15
    let bf1 : Nat := if 9 ≤ h then 0 else 1
    let day2 := if bf1 < d then d - bf1
      else daysInMonth.getD ((mo + 10) % 12) 0 +
        (if isLeapYear y && mo - 1 == 2 then 1 else 0)
    let bf2 : Nat := if bf1 < d then 0 else 1
    let mo2 := if bf2 < mo then mo - bf2 else 12
    let bf3 : Nat := if bf2 < mo then 0 else 1
    .ok ⟨y - bf3, mo2, day2, hour2, mi, s⟩
  else .error .unexpectedRange

/-- Result of `Time::from_str`: success, a `time::Error`, or a Rust
panic (out-of-bounds indexing/slicing). -/
inductive PResult where
  | ok (t : Time)
  | err (e : TError)
  | crash
deriving DecidableEq, Repr

/-- `u8::is_ascii_graphic` on a byte value. -/
def isAsciiGraphic (b : Nat) : Bool := 33 ≤ b && b ≤ 126

/-- The digit-accumulation loop of Rust's unsigned integer `parse`. -/
def digitsValAux (acc : Nat) : List Nat → Option Nat
  | [] => some acc
  | b :: rest =>
      if 48 ≤ b && b ≤ 57 then digitsValAux (acc * 10 + (b - 48)) rest
      else none

/-- Value of a nonempty all-digit byte sequence; `none` otherwise. -/
def digitsVal (bs : List Nat) : Option Nat :=
  match bs with
  | [] => none
  | _ :: _ => digitsValAux 0 bs

/-- Rust `str::parse` for an unsigned integer: an optional leading `+`
followed by at least one ASCII digit.  (The fields parsed are at most
four digits, so overflow of `u8`/`u16` cannot occur.) -/
def parseUint (bs : List Nat) : Option Nat :=
  match bs with
  | 43 :: rest => digitsVal rest
  | _ => digitsVal bs

/-- The byte slice `s[i..i+len]`. -/
def slice (bs : List Nat) (i len : Nat) : List Nat := (bs.drop i).take len

/-- `impl FromStr for Time` (`time.rs` lines 22-45), on the byte
sequence of the input.  Faithful to the source: the guard returns
`EarlyTermination` only when the length differs from 19 AND every byte
is ASCII-graphic (the source combines the two tests with `&&`); the
five separator positions are then read with panicking indexing, the
six numeric fields are sliced and parsed in order, and the result is
passed to `Time::new`.  `crash` marks an out-of-bounds access. -/
def fromStrBytes (bs : List Nat) : PResult :=
  if bs.length != 19 && bs.all isAsciiGraphic then .err .earlyTermination
  else
    match bs[4]? with
    | none => .crash
    | some b4 =>
      if b4 ≠ 45 then .err .unexpectedChar
      else match bs[7]? with
      | none => .crash
      | some b7 =>
        if b7 ≠ 45 then .err .unexpectedChar
        else match bs[10]? with
        | none => .crash
        | some b10 =>
          if b10 ≠ 32 then .err .unexpectedChar
          else match bs[13]? with
          | none => .crash
          | some b13 =>
            if b13 ≠ 58 then .err .unexpectedChar
            else match bs[16]? with
            | none => .crash
            | some b16 =>
              if b16 ≠ 58 then .err .unexpectedChar
              else
                match parseUint (slice bs 0 4) with
                | none => .err .unexpectedChar
                | some year =>
                  match parseUint (slice bs 5 2) with
                  | none => .err .unexpectedChar
                  | some month =>
                    match parseUint (slice bs 8 2) with
                    | none => .err .unexpectedChar
                    | some day =>
                      match parseUint (slice bs 11 2) with
                      | none => .err .unexpectedChar
                      | some hour =>
                        match parseUint (slice bs 14 2) with
                        | none => .err .unexpectedChar
                        | some minute =>
                          if bs.length < 19 then .crash
                          else
                            match parseUint (slice bs 17 2) with
                            | none => .err .unexpectedChar
                            | some second =>
                              match Time.new year month day hour minute second with
                              | .ok t => .ok t
                              | .error e => .err e

/-- `Time::from_str` on an (ASCII) input string. -/
def fromStr (s : String) : PResult :=
  fromStrBytes (s.data.map Char.toNat)

/-- The digit-array loop of `write_fix_width` (`time.rs` lines
129-139): digit `i` (from the left, width `w`) is
`n / 10^(w-1-i) % 10`. -/
def fixWidth (w n : Nat) : List Char :=
  (List.range w).map (fun i => Char.ofNat (n / 10 ^ (w - 1 - i) % 10 + 48))

/-- `impl Display for Time` (`time.rs` lines 142-158):
`YYYY-MM-DDTHH:MM:SSZ`, zero padded. -/
def timeToString (t : Time) : String :=
  String.mk (fixWidth 4 t.year) ++ "-" ++ String.mk (fixWidth 2 t.month) ++ "-" ++
    String.mk (fixWidth 2 t.day) ++ "T" ++ String.mk (fixWidth 2 t.hour) ++ ":" ++
    String.mk (fixWidth 2 t.minute) ++ ":" ++ String.mk (fixWidth 2 t.second) ++ "Z"

/-! ### Package model (`src/epub/mod.rs`) -/

/-- `ReferenceType`. -/
inductive RefType where
  | title
  | text
  | navi
  | image
  | style
deriving DecidableEq, Repr

/-- `MediaType`. -/
inductive MediaType where
  | css
  | xhtml
  | jpg
  | png
  | gif
deriving DecidableEq, Repr

/-- `impl From<&MediaType> for &str` (`mod.rs` lines 29-39); the GIF arm
is the literal the source contains. -/
def mediaTypeStr (m : MediaType) : String :=
  match m with
  | .css => "text/css"
  | .xhtml => "application/xhtml+xml"
  | .jpg => "image/jpeg"
  | .png => "image/png"
  | .gif => "iamge/gif"

/-- `Direction`. -/
inductive Direction where
  | rtl
  | ltr
deriving DecidableEq, Repr

/-- `impl Display for Direction`. -/
def directionStr (d : Direction) : String :=
  match d with
  | .ltr => "ltr"
  | .rtl => "rtl"

/-- `ContentMetadata` (`mod.rs` lines 53-60); `idNum` is the counter
value of the allocated `ItemId`. -/
structure ContentMeta where
  name : String
  title : String
  mediaType : MediaType
  reftype : RefType
  level : Nat
  idNum : Nat
deriving DecidableEq, Repr

/-- `ResourceMetadata` (`mod.rs` lines 62-67). -/
structure ResourceMeta where
  name : String
  mediaType : MediaType
  reftype : RefType
  idNum : Nat
deriving DecidableEq, Repr

/-- Compression level passed to `ZipArchive::add_entry`. -/
inductive CompLevel where
  | raw
  | high
deriving DecidableEq, Repr

/-- One operation handed to the Container Writer (`zip_builder`):
a named entry, or a flush. -/
inductive ZipEvent where
  | entry (name : String) (level : CompLevel)
  | flushEv
deriving DecidableEq, Repr

/-- The `Epub` package model: metadata fields, ordered entry lists, the
shared `IdIter` counter, and the sequence of operations performed on
the Container Writer so far. -/
structure Epub where
  title : String
  author : Option (String × String)
  modified : Option Time
  description : Option String
  source : Option String
  contents : List ContentMeta
  resources : List ResourceMeta
  direction : Direction
  nextId : Nat
  trace : List ZipEvent
deriving DecidableEq, Repr

/-- `Epub::new` (`mod.rs` lines 210-230): writes the stored `mimetype`
entry and the `META-INF/container.xml` descriptor, then starts with
empty metadata, empty entry lists, direction RTL and counter 0. -/
def Epub.new : Epub where
  title := ""
  author := none
  modified := none
  description := none
  source := none
  contents := []
  resources := []
  direction := .rtl
  nextId := 0
  trace := [.entry "mimetype" .raw, .entry "META-INF/container.xml" .high]

/-- `Epub::add_content` (`mod.rs` lines 262-281): write the entry, then
append a `ContentMetadata` with the next allocated identifier. -/
def Epub.addContent (e : Epub) (name title : String) (mt : MediaType)
    (level : Nat) (rt : RefType) : Epub :=
  { e with
    trace := e.trace ++ [.entry name .high]
    contents := e.contents ++ [⟨name, title, mt, rt, level, e.nextId⟩]
    nextId := e.nextId + 1 }

/-- `Epub::add_resource` (`mod.rs` lines 283-298). -/
def Epub.addResource (e : Epub) (name : String) (mt : MediaType)
    (rt : RefType) : Epub :=
  { e with
    trace := e.trace ++ [.entry name .high]
    resources := e.resources ++ [⟨name, mt, rt, e.nextId⟩]
    nextId := e.nextId + 1 }

/-- Setter operations (`mod.rs` lines 232-260). -/
def Epub.setTitle (e : Epub) (t : String) : Epub := { e with title := t }

def Epub.setAuthor (e : Epub) (a y : String) : Epub :=
  { e with author := some (a, y) }

def Epub.setModified (e : Epub) (t : Time) : Epub := { e with modified := some t }

def Epub.setDescription (e : Epub) (d : String) : Epub :=
  { e with description := some d }

def Epub.setSource (e : Epub) (s : String) : Epub := { e with source := some s }

def Epub.setDirection (e : Epub) (d : Direction) : Epub := { e with direction := d }

/-- `Epub::finish` (`mod.rs` lines 361-372): add the generated
navigation document as a resource (name `nav.xhtml`, XHTML, reftype
Navi), then write `content.opf`, then flush. -/
def Epub.finish (e : Epub) : Epub :=
  let e1 := e.addResource "nav.xhtml" .xhtml .navi
  { e1 with trace := e1.trace ++ [.entry "content.opf" .high, .flushEv] }

/-! ### Manifest and spine (`impl Display for Manifest / Spine`) -/

/-- One `<item>` element of the manifest. -/
structure ManifestItem where
  mediaType : String
  id : String
  href : String
  navProp : Bool
deriving DecidableEq, Repr

/-- The manifest item written for a `ContentMetadata` (`mod.rs` lines
103-117): media type, rendered id, href = name, nav property iff the
reftype is Navi. -/
def contentItem (c : ContentMeta) : ManifestItem :=
  ⟨mediaTypeStr c.mediaType, itemIdRender c.idNum, c.name, c.reftype == .navi⟩

/-- The manifest item written for a `ResourceMetadata` (`mod.rs` lines
118-132). -/
def resourceItem (r : ResourceMeta) : ManifestItem :=
  ⟨mediaTypeStr r.mediaType, itemIdRender r.idNum, r.name, r.reftype == .navi⟩

/-- `impl Display for Manifest` (`mod.rs` lines 100-136) emits one
`<item>` per content entry, then one per resource entry. -/
def manifestItems (e : Epub) : List ManifestItem :=
  e.contents.map contentItem ++ e.resources.map resourceItem

/-- Rendering of one manifest `<item>`. -/
def manifestItemStr (it : ManifestItem) : String :=
  if it.navProp then
    "<item media-type=\"" ++ it.mediaType ++ "\" id=\"" ++ it.id ++
      "\" href=\"" ++ it.href ++ "\" properties=\"nav\"/>"
  else
    "<item media-type=\"" ++ it.mediaType ++ "\" id=\"" ++ it.id ++
      "\" href=\"" ++ it.href ++ "\"/>"

/-- The full `<manifest>` string. -/
def manifestStr (e : Epub) : String :=
  "<manifest>" ++ String.join ((manifestItems e).map manifestItemStr) ++ "</manifest>"

/-- `impl Display for Spine` (`mod.rs` lines 142-155) iterates the
content entries only, emitting one `<itemref>` each, in order. -/
def spineIdrefs (e : Epub) : List String :=
  e.contents.map (fun c => itemIdRender c.idNum)

/-- The full `<spine>` string. -/
def spineStr (e : Epub) : String :=
  "<spine page-progression-direction=\"" ++ directionStr e.direction ++ "\">" ++
    String.join ((spineIdrefs e).map (fun i => "<itemref idref=\"" ++ i ++ "\"/>")) ++
    "</spine>"

/-! ### Navigation document (`impl Display for Topic`) -/

/-- The `<a>` link emitted inside a toc list item (`mod.rs` line 185):
the href is the raw entry name, the label is the escaped title. -/
def tocLink (i : ContentMeta) : String :=
  "<a href=\"" ++ i.name ++ "\">" ++ escape i.title ++ "</a>"

/-- The toc loop of `impl Display for Topic` (`mod.rs` lines 168-190),
with the trailing close-out after the loop folded into the empty-list
case.  `level` is the running `current_level`, initially 0. -/
def tocGo : List ContentMeta → Nat → String
  | [], level => String.join (List.replicate level "</li></ol>")
  | i :: rest, level =>
      (if level < i.level then
          String.join (List.replicate (i.level - level) "<ol>") ++ "<li>"
        else if i.level == level then "</li><li>"
        else "</li>" ++ String.join (List.replicate (level - i.level) "</ol></li>") ++
          "<li>") ++
      tocLink i ++ tocGo rest i.level

/-- The landmark `<li>` emitted for a Title-reftype entry (`mod.rs`
lines 196-201). -/
def landmarkItem (i : ContentMeta) : String :=
  "<li><a epub:type=\"titlepage\" href=\"" ++ i.name ++ "\">" ++
    escape i.title ++ "</a></li>"

/-- The landmarks loop of `impl Display for Topic` (`mod.rs` lines
194-203): one item per Title-reftype entry, in order. -/
def landGo : List ContentMeta → String
  | [] => ""
  | i :: rest => (if i.reftype == .title then landmarkItem i else "") ++ landGo rest

/-! ### OPF metadata blocks (`Epub::make_content`) -/

/-- The creator block (`mod.rs` lines 313-321): escaped author name and
escaped reading form. -/
def authorBlock (author yomigana : String) : String :=
  "<dc:creator id=\"creator\">" ++ escape author ++
    "</dc:creator><meta refines=\"#creator\" property=\"role\" scheme=\"marc:relators\">aut</meta><meta refines=\"#creator\" property=\"file-as\">" ++
    escape yomigana ++ "</meta>"

/-- The source block (`mod.rs` lines 323-331): the identifier uses the
computed UUID string, the `dcterms:source` meta carries the raw,
unescaped source string. -/
def sourceBlock (uuid source : String) : String :=
  "<dc:identifier id=\"epub-id\">urn:uuid:" ++ uuid ++
    "</dc:identifier><meta property=\"dcterms:source\">" ++ source ++ "</meta>"

/-- The modified block (`mod.rs` lines 333-337). -/
def modifiedBlock (t : Time) : String :=
  "<meta property=\"dcterms:modified\">" ++ timeToString t ++ "</meta>"

/-- The description block (`mod.rs` lines 339-346): escaped. -/
def descriptionBlock (d : String) : String :=
  "<dc:description>" ++ escape d ++ "</dc:description>"

/-- The title slot passed to the OPF template (`mod.rs` line 351):
escaped. -/
def titleSlot (e : Epub) : String := escape e.title

/-- Parse a timestamp string and format the result, when parsing
succeeds. -/
def parseFormat (s : String) : Option String :=
  match fromStr s with
  | .ok t => some (timeToString t)
  | _ => none

/-! ### Caller operations on the package model -/

/-- One caller-side operation on the package model, between `Epub::new`
and `Epub::finish`. -/
inductive EpubOp where
  | addContent (name title : String) (mt : MediaType) (level : Nat) (rt : RefType)
  | addResource (name : String) (mt : MediaType) (rt : RefType)
  | setTitle (t : String)
  | setAuthor (a y : String)
  | setModified (t : Time)
  | setDescription (d : String)
  | setSource (s : String)
  | setDirection (d : Direction)
deriving DecidableEq, Repr

/-- Apply one caller operation. -/
def applyOp (e : Epub) (op : EpubOp) : Epub :=
  match op with
  | .addContent n t mt lvl rt => e.addContent n t mt lvl rt
  | .addResource n mt rt => e.addResource n mt rt
  | .setTitle t => e.setTitle t
  | .setAuthor a y => e.setAuthor a y
  | .setModified t => e.setModified t
  | .setDescription d => e.setDescription d
  | .setSource s => e.setSource s
  | .setDirection d => e.setDirection d

/-- The package model state after a sequence of caller operations. -/
def buildEpub (ops : List EpubOp) : Epub := ops.foldl applyOp Epub.new

/-- The container entry an operation writes, if any (setters write
none; both add operations write one deflated entry under their name). -/
def opEntry : EpubOp → Option ZipEvent
  | .addContent n _ _ _ _ => some (.entry n .high)
  | .addResource n _ _ => some (.entry n .high)
  | _ => none

/-- The `ReferenceType` an operation supplies, if any. -/
def opReftype : EpubOp → Option RefType
  | .addContent _ _ _ _ rt => some rt
  | .addResource _ _ rt => some rt
  | _ => none

/-- Whether an operation is an `add_content` call. -/
def isAddContent : EpubOp → Bool
  | .addContent _ _ _ _ _ => true
  | _ => false

/-- Whether an operation avoids the Navi reference type. -/
def opNotNavi (op : EpubOp) : Bool := opReftype op != some RefType.navi

/-- The `ReferenceType` an `add_content` operation supplies. -/
def contentRef : EpubOp → Option RefType
  | .addContent _ _ _ _ rt => some rt
  | _ => none

/-- The `ReferenceType` an `add_resource` operation supplies. -/
def resourceRef : EpubOp → Option RefType
  | .addResource _ _ rt => some rt
  | _ => none

/-- The identifier numbers allocated in a package, contents first. -/
def idsOf (e : Epub) : List Nat :=
  e.contents.map (fun c => c.idNum) ++ e.resources.map (fun r => r.idNum)

/-- Allocation invariant: every allocated identifier number is below
the counter, and no number repeats. -/
def GoodIds (e : Epub) : Prop :=
  (∀ i ∈ idsOf e, i < e.nextId) ∧ (idsOf e).Nodup

/-! ### Spec-side definitions for refinement claims -/

/-- The toc algorithm as the specification states it (§4.4): comparing
each entry level with the current level, open `(level − current)`
wrappers then one item when greater; close then reopen an item when
equal; close the item then `(current − level)` wrapper/item pairs then
open an item when less; close the `current` remaining pairs after the
loop. -/
def tocSpecGo : List ContentMeta → Nat → String
  | [], cur => String.join (List.replicate cur "</li></ol>")
  | i :: rest, cur =>
      (if cur < i.level then
          String.join (List.replicate (i.level - cur) "<ol>") ++ "<li>"
        else if i.level = cur then "</li><li>"
        else "</li>" ++ String.join (List.replicate (cur - i.level) "</ol></li>") ++
          "<li>") ++
      tocLink i ++ tocSpecGo rest i.level

/-- Classification of one toc-loop iteration: open up to, stay at, or
close down to a nesting depth. -/
inductive TocStep where
  | openTo (n : Nat)
  | same (n : Nat)
  | closeTo (n : Nat)
deriving DecidableEq, Repr

/-- The branch taken by the toc loop for each entry level, starting
from current level 0. -/
def tocSteps : List Nat → Nat → List TocStep
  | [], _ => []
  | l :: rest, cur =>
      (if cur < l then TocStep.openTo l else if l = cur then TocStep.same l
        else TocStep.closeTo l) :: tocSteps rest l

/-- The seven content entries whose levels are `[1,2,2,1,3,3,2]`. -/
def levelSeqEntries : List ContentMeta :=
  [⟨"", "", .xhtml, .text, 1, 0⟩, ⟨"", "", .xhtml, .text, 2, 1⟩,
   ⟨"", "", .xhtml, .text, 2, 2⟩, ⟨"", "", .xhtml, .text, 1, 3⟩,
   ⟨"", "", .xhtml, .text, 3, 4⟩, ⟨"", "", .xhtml, .text, 3, 5⟩,
   ⟨"", "", .xhtml, .text, 2, 6⟩]

/-! ### Calendar arithmetic used to state the 9-hour-offset claim -/

/-- Days in the months preceding month `mo` of a non-leap year. -/
def cumDays (mo : Nat) : Nat :=
  match mo with
  | 1 => 0
  | 2 => 31
  | 3 => 59
  | 4 => 90
  | 5 => 120
  | 6 => 151
  | 7 => 181
  | 8 => 212
  | 9 => 243
  | 10 => 273
  | 11 => 304
  | 12 => 334
  | _ => 0

/-- Day number of a proleptic Gregorian calendar date (the count used
by the source's own `year_to_days`/`date_to_days` test helpers,
without the epoch shift). -/
def rataDie (y mo d : Nat) : Nat :=
  (y - 1) * 365 + (y - 1) / 4 - (y - 1) / 100 + (y - 1) / 400 +
    cumDays mo + (if 2 < mo ∧ isLeapYear y = true then 1 else 0) + d

/-- Second count of a `Time` value on the linear calendar scale. -/
def toSeconds (t : Time) : Nat :=
  rataDie t.year t.month t.day * 86400 + t.hour * 3600 + t.minute * 60 + t.second

/-- Days in the month before `mo` of year `y`, as the specification
words it (\"days-in-previous-month, accounting leap\"). -/
def prevMonthDays (y mo : Nat) : Nat :=
  if mo = 1 then 31
  else daysInMonth.getD (mo - 2) 0 + (if isLeapYear y = true ∧ mo - 1 = 2 then 1 else 0)

/-- The 9-hour-subtraction borrow algorithm as the specification states
it (§4.2): subtract 9 from the hour or add 15 and borrow a day; a day
borrow replaces the day with the length of the previous month and
borrows a month; a month borrow replaces the month with 12 and borrows
a year. -/
def borrowSpec (y mo d h mi s : Nat) : Time :=
  let hour2 := if 9 ≤ h then h - 9 else h + 15
  let bf1 : Nat := if 9 ≤ h then 0 else 1
  let day2 := if bf1 < d then d - bf1 else prevMonthDays y mo
  let bf2 : Nat := if bf1 < d then 0 else 1
  let mo2 := if bf2 < mo then mo - bf2 else 12
  let bf3 : Nat := if bf2 < mo then 0 else 1
  ⟨y - bf3, mo2, day2, hour2, mi, s⟩

end NarouEpub

namespace NarouEpub

/-! ### Supporting lemmas -/

theorem escape_foldl (cs : List Char) (acc : List Char) :
    List.foldl (fun a c => a ++ escChar c) acc cs = acc ++ (cs.map escChar).flatten := by
  induction cs generalizing acc with
  | nil => simp
  | cons c rest ih => simp [List.foldl_cons, ih, List.append_assoc]

theorem escapeList_eq_join (cs : List Char) : escapeList cs = (cs.map escChar).flatten := by
  simpa [escapeList] using escape_foldl cs []

theorem escChar_of_plain (c : Char) (h1 : c ≠ '&') (h2 : c ≠ '"') (h3 : c ≠ '<')
    (h4 : c ≠ '>') : escChar c = [c] := by
  unfold escChar
  split <;> simp_all

theorem join_map_escChar (cs : List Char)
    (h : ∀ c ∈ cs, c ≠ '&' ∧ c ≠ '"' ∧ c ≠ '<' ∧ c ≠ '>') :
    (cs.map escChar).flatten = cs := by
  induction cs with
  | nil => rfl
  | cons c rest ih =>
    have hc := h c (List.mem_cons_self c rest)
    rw [List.map_cons, List.flatten_cons,
      escChar_of_plain c hc.1 hc.2.1 hc.2.2.1 hc.2.2.2,
      ih (fun x hx => h x (List.mem_cons_of_mem c hx))]
    rfl

theorem tocGo_eq_spec (cs : List ContentMeta) (cur : Nat) :
    tocGo cs cur = tocSpecGo cs cur := by
  induction cs generalizing cur with
  | nil => rfl
  | cons i rest ih => simp [tocGo, tocSpecGo, ih, beq_iff_eq]

theorem strJoin_cons (s : String) (l : List String) :
    String.join (s :: l) = s ++ String.join l := by
  obtain ⟨cs⟩ := s
  simp [String.join_eq, List.flatten_cons]
  rfl

theorem landGo_eq_filter (cs : List ContentMeta) :
    landGo cs = String.join ((cs.filter (fun i => i.reftype == RefType.title)).map landmarkItem) := by
  induction cs with
  | nil => rfl
  | cons i rest ih =>
    cases hi : (i.reftype == RefType.title) <;>
      simp [landGo, List.filter_cons, hi, ih, strJoin_cons]

theorem trace_foldl (ops : List EpubOp) (e : Epub) :
    (ops.foldl applyOp e).trace = e.trace ++ ops.filterMap opEntry := by
  induction ops generalizing e with
  | nil => simp
  | cons op rest ih =>
    rw [List.foldl_cons, ih]
    cases op <;>
      simp [applyOp, Epub.addContent, Epub.addResource, Epub.setTitle, Epub.setAuthor,
        Epub.setModified, Epub.setDescription, Epub.setSource, Epub.setDirection,
        opEntry, List.filterMap_cons, List.append_assoc]

theorem contents_reftypes (ops : List EpubOp) (e : Epub) :
    (ops.foldl applyOp e).contents.map (fun c => c.reftype) =
      e.contents.map (fun c => c.reftype) ++ ops.filterMap contentRef := by
  induction ops generalizing e with
  | nil => simp
  | cons op rest ih =>
    rw [List.foldl_cons, ih]
    cases op <;>
      simp [applyOp, Epub.addContent, Epub.addResource, Epub.setTitle, Epub.setAuthor,
        Epub.setModified, Epub.setDescription, Epub.setSource, Epub.setDirection,
        contentRef, List.filterMap_cons, List.append_assoc]

theorem resources_reftypes (ops : List EpubOp) (e : Epub) :
    (ops.foldl applyOp e).resources.map (fun r => r.reftype) =
      e.resources.map (fun r => r.reftype) ++ ops.filterMap resourceRef := by
  induction ops generalizing e with
  | nil => simp
  | cons op rest ih =>
    rw [List.foldl_cons, ih]
    cases op <;>
      simp [applyOp, Epub.addContent, Epub.addResource, Epub.setTitle, Epub.setAuthor,
        Epub.setModified, Epub.setDescription, Epub.setSource, Epub.setDirection,
        resourceRef, List.filterMap_cons, List.append_assoc]

theorem contents_length_foldl (ops : List EpubOp) (e : Epub) :
    (ops.foldl applyOp e).contents.length =
      e.contents.length + ops.countP isAddContent := by
  induction ops generalizing e with
  | nil => simp
  | cons op rest ih =>
    rw [List.foldl_cons, ih]
    cases op <;>
      simp [applyOp, Epub.addContent, Epub.addResource, Epub.setTitle, Epub.setAuthor,
        Epub.setModified, Epub.setDescription, Epub.setSource, Epub.setDirection,
        isAddContent, List.countP_cons] <;> omega

theorem idsPerm_applyOp (e : Epub) (op : EpubOp)
    (hp : (idsOf e).Perm (List.range e.nextId)) :
    (idsOf (applyOp e op)).Perm (List.range (applyOp e op).nextId) := by
  cases op with
  | addContent n t mt lvl rt =>
    have h1 : idsOf (applyOp e (.addContent n t mt lvl rt)) =
        (e.contents.map (fun c => c.idNum) ++ [e.nextId]) ++
          e.resources.map (fun r => r.idNum) := by
      simp [idsOf, applyOp, Epub.addContent]
    have h2 : ((e.contents.map (fun c => c.idNum) ++ [e.nextId]) ++
        e.resources.map (fun r => r.idNum)).Perm (idsOf e ++ [e.nextId]) := by
      rw [List.append_assoc]
      exact List.Perm.trans List.perm_middle ((List.perm_append_singleton _ _).symm)
    have h3 : (applyOp e (.addContent n t mt lvl rt)).nextId = e.nextId + 1 := rfl
    rw [h1, h3, List.range_succ]
    exact h2.trans (hp.append_right _)
  | addResource n mt rt =>
    have h1 : idsOf (applyOp e (.addResource n mt rt)) = idsOf e ++ [e.nextId] := by
      simp [idsOf, applyOp, Epub.addResource, List.append_assoc]
    have h3 : (applyOp e (.addResource n mt rt)).nextId = e.nextId + 1 := rfl
    rw [h1, h3, List.range_succ]
    exact hp.append_right _
  | setTitle t => exact hp
  | setAuthor a y => exact hp
  | setModified t => exact hp
  | setDescription d => exact hp
  | setSource s => exact hp
  | setDirection d => exact hp

theorem idsPerm_foldl (ops : List EpubOp) (e : Epub)
    (hp : (idsOf e).Perm (List.range e.nextId)) :
    (idsOf (ops.foldl applyOp e)).Perm (List.range (ops.foldl applyOp e).nextId) := by
  induction ops generalizing e with
  | nil => exact hp
  | cons op rest ih => exact ih (applyOp e op) (idsPerm_applyOp e op hp)

theorem contentRef_opReftype (op : EpubOp) (rt : RefType)
    (h : contentRef op = some rt) : opReftype op = some rt := by
  cases op <;> simp_all [contentRef, opReftype]

theorem resourceRef_opReftype (op : EpubOp) (rt : RefType)
    (h : resourceRef op = some rt) : opReftype op = some rt := by
  cases op <;> simp_all [contentRef, resourceRef, opReftype]

theorem isLeapYear_spec (y : Nat) :
    isLeapYear y = true ↔ (y % 400 = 0 ∨ (y % 4 = 0 ∧ y % 100 ≠ 0)) := by
  simp [isLeapYear, Bool.or_eq_true, Bool.and_eq_true, beq_iff_eq, bne_iff_ne]

set_option maxHeartbeats 1600000 in
theorem yearBorrow_rataDie (y : Nat) (hy : 1970 ≤ y) :
    rataDie (y - 1) 12 31 + 1 = rataDie y 1 1 := by
  obtain ⟨z, rfl⟩ : ∃ z, y = z + 2 := ⟨y - 2, by omega⟩
  have hsp := isLeapYear_spec (z + 1)
  have hzy : z + 2 - 1 = z + 1 := by omega
  have hzz : z + 1 - 1 = z := by omega
  simp only [rataDie, hzy, hzz]
  rw [show cumDays 12 = 334 from rfl, show cumDays 1 = 0 from rfl]
  split_ifs with ha hb hb
  · exact absurd hb.1 (by omega)
  · have hf := hsp.mp ha.2
    omega
  · exact absurd hb.1 (by omega)
  · have hf : ¬((z + 1) % 400 = 0 ∨ ((z + 1) % 4 = 0 ∧ (z + 1) % 100 ≠ 0)) := by
      intro hc
      exact ha ⟨by omega, hsp.mpr hc⟩
    omega

theorem monthBorrow_rataDie (y mo : Nat) (h2 : 1 < mo) (h12 : mo ≤ 12) :
    rataDie y (mo - 1) (prevMonthDays y mo) + 1 = rataDie y mo 1 := by
  interval_cases mo <;>
    cases hl : isLeapYear y <;>
      simp [rataDie, cumDays, daysInMonth, prevMonthDays, hl] <;> omega

theorem prevDays_eq (y mo : Nat) (h1 : 1 ≤ mo) (h2 : mo ≤ 12) :
    daysInMonth.getD ((mo + 10) % 12) 0 +
        (if isLeapYear y && mo - 1 == 2 then 1 else 0) = prevMonthDays y mo := by
  interval_cases mo <;>
    cases hl : isLeapYear y <;>
      simp [prevMonthDays, daysInMonth, hl]

theorem countNavi_contents (ops : List EpubOp) (h : ops.all opNotNavi = true) :
    ((buildEpub ops).contents).countP (fun c => c.reftype == RefType.navi) = 0 := by
  have hm := contents_reftypes ops Epub.new
  have h0 : ((buildEpub ops).contents.map (fun c => c.reftype)).countP
      (fun rt => rt == RefType.navi) = 0 := by
    rw [show (buildEpub ops).contents.map (fun c => c.reftype) =
        ops.filterMap contentRef from by simpa [Epub.new, buildEpub] using hm]
    rw [List.countP_eq_zero]
    intro rt hrt
    obtain ⟨op, hop, heq⟩ := List.mem_filterMap.mp hrt
    have h2 := contentRef_opReftype op rt heq
    have h3 := List.all_eq_true.mp h op hop
    rw [opNotNavi, h2] at h3
    simp at h3 ⊢
    exact h3
  rw [List.countP_map] at h0
  simpa [Function.comp] using h0

theorem countNavi_resources (ops : List EpubOp) (h : ops.all opNotNavi = true) :
    ((buildEpub ops).resources).countP (fun r => r.reftype == RefType.navi) = 0 := by
  have hm := resources_reftypes ops Epub.new
  have h0 : ((buildEpub ops).resources.map (fun r => r.reftype)).countP
      (fun rt => rt == RefType.navi) = 0 := by
    rw [show (buildEpub ops).resources.map (fun r => r.reftype) =
        ops.filterMap resourceRef from by simpa [Epub.new, buildEpub] using hm]
    rw [List.countP_eq_zero]
    intro rt hrt
    obtain ⟨op, hop, heq⟩ := List.mem_filterMap.mp hrt
    have h2 := resourceRef_opReftype op rt heq
    have h3 := List.all_eq_true.mp h op hop
    rw [opNotNavi, h2] at h3
    simp at h3 ⊢
    exact h3
  rw [List.countP_map] at h0
  simpa [Function.comp] using h0

theorem idsPerm_finish (ops : List EpubOp) :
    (idsOf (Epub.finish (buildEpub ops))).Perm
      (List.range (Epub.finish (buildEpub ops)).nextId) := by
  have h1 : (idsOf (buildEpub ops)).Perm (List.range (buildEpub ops).nextId) := by
    have : (idsOf Epub.new).Perm (List.range Epub.new.nextId) := by
      simp [idsOf, Epub.new]
    exact idsPerm_foldl ops Epub.new this
  exact idsPerm_applyOp (buildEpub ops) (.addResource "nav.xhtml" .xhtml .navi) h1

/-! ### Claim theorems -/

/-- C1: the claim fails on the code.  The boundary values
`Name-ID(0) = "0"` and `Name-ID(35) = "z"` hold, but Name-ID rendering
is not injective: the continuation loop of `impl Display for Id<T>`
divides by the literal `62` instead of the continuation-alphabet
length (36 for `NameId`), so the distinct counters 36 and 1332 both
render as `"01"`. -/
theorem nameId_collision_36_1332 :
    nameIdRender 36 = "01" ∧ nameIdRender 1332 = "01" ∧ (36 : Nat) ≠ 1332 ∧
      nameIdRender 0 = "0" ∧ nameIdRender 35 = "z" := by
  decide

/-- C2: the four timestamp literal cases: parsing then formatting gives
exactly the stated strings, and the non-leap-year February 29 input
returns `UnexpectedRange`. -/
theorem time_literal_cases :
    parseFormat "1999-01-01 00:00:00" = some "1998-12-31T15:00:00Z" ∧
      parseFormat "2000-02-29 00:00:00" = some "2000-02-28T15:00:00Z" ∧
      parseFormat "1998-12-31 23:59:60" = some "1998-12-31T14:59:60Z" ∧
      fromStr "2017-02-29 12:34:56" = .err .unexpectedRange := by
  decide

/-- C3: the claim fails on the code.  The guard of
`impl FromStr for Time` combines the length test with an
all-ASCII-graphic test using `&&`, so the 20-byte input
`"1999-01-01 00:00:00x"` (which contains a space, hence is not
all-graphic) bypasses the `EarlyTermination` return and parses
successfully instead of returning `EarlyTermination`. -/
theorem fromStr_length20_parses :
    ("1999-01-01 00:00:00x".length ≠ 19) ∧
      fromStr "1999-01-01 00:00:00x" = .ok ⟨1998, 12, 31, 15, 0, 0⟩ := by
  decide

/-- C4: the claim fails on the code.  `Time::from_str` is not total
with the closed error taxonomy: the 4-byte input `"ab c"` (wrong
length but not all-ASCII-graphic) bypasses the `EarlyTermination`
guard and reaches `s.as_bytes()[4]`, an out-of-bounds index, i.e. a
panic. -/
theorem fromStr_crash_on_short_input :
    fromStr "ab c" = .crash ∧ ("ab c".length = 4) := by
  decide

/-- C10: media-type rendering emits exactly the five literal strings of
the source (including the non-standard `"iamge/gif"` for GIF), and the
manifest item generated for any GIF resource of any package carries
that exact media-type value. -/
theorem mediaType_rendering (e : Epub) (r : ResourceMeta)
    (h1 : r ∈ e.resources) (h2 : r.mediaType = .gif) :
    mediaTypeStr .css = "text/css" ∧
      mediaTypeStr .xhtml = "application/xhtml+xml" ∧
      mediaTypeStr .jpg = "image/jpeg" ∧
      mediaTypeStr .png = "image/png" ∧
      mediaTypeStr .gif = "iamge/gif" ∧
      resourceItem r ∈ manifestItems e ∧
      (resourceItem r).mediaType = "iamge/gif" := by
  refine ⟨rfl, rfl, rfl, rfl, rfl, ?_, ?_⟩
  · exact List.mem_append_right _ (List.mem_map_of_mem _ h1)
  · simp [resourceItem, h2, mediaTypeStr]

/-- C5: for every field tuple passing `Time::new`'s validation, the
stored value is exactly the result of the 9-hour-subtraction borrow
algorithm as the specification states it, and that value denotes the
calendar instant exactly 9 hours (32400 seconds) earlier than the
validated local input on the linear day-number scale. -/
theorem time_new_conversion (y mo d h mi s : Nat)
    (hv : validTime y mo d h mi s = true) :
    Time.new y mo d h mi s = Except.ok (borrowSpec y mo d h mi s) ∧
      toSeconds ⟨y, mo, d, h, mi, s⟩ =
        toSeconds (borrowSpec y mo d h mi s) + 9 * 3600 := by
  have hb := hv
  simp only [validTime, Bool.and_eq_true, decide_eq_true_eq] at hb
  obtain ⟨⟨⟨⟨⟨⟨hy1, hy2⟩, hmo1, hmo2⟩, hd1, hd2⟩, hh⟩, hmi⟩, hs⟩ := hb
  have hd0 : 0 < d := hd1
  have hmo0 : 0 < mo := hmo1
  constructor
  · simp only [Time.new, hv, if_true]
    rw [prevDays_eq y mo hmo1 hmo2]
    rfl
  · by_cases h9 : 9 ≤ h
    · simp only [borrowSpec, if_pos h9, if_pos hd0, if_pos hmo0, toSeconds,
        Nat.sub_zero]
      omega
    · by_cases hdb : 1 < d
      · simp only [borrowSpec, if_neg h9, if_pos hdb, if_pos hmo0, toSeconds,
          Nat.sub_zero, rataDie]
        omega
      · have hde : d = 1 := by omega
        subst hde
        by_cases hmb : 1 < mo
        · simp only [borrowSpec, if_neg h9, if_neg hdb, if_pos hmb, toSeconds,
            Nat.sub_zero]
          have hB := monthBorrow_rataDie y mo hmb hmo2
          omega
        · have hme : mo = 1 := by omega
          subst hme
          simp only [borrowSpec, if_neg h9, if_neg hdb, if_neg hmb, toSeconds]
          have hC := yearBorrow_rataDie y hy1
          rw [show prevMonthDays y 1 = 31 from rfl]
          omega

/-- Witness for C5 at the New Year midnight boundary (year, month and
day all borrow). -/
theorem time_new_conversion_witness :
    validTime 1999 1 1 0 0 0 = true ∧
      (Time.new 1999 1 1 0 0 0 = Except.ok (borrowSpec 1999 1 1 0 0 0) ∧
        toSeconds ⟨1999, 1, 1, 0, 0, 0⟩ =
          toSeconds (borrowSpec 1999 1 1 0 0 0) + 9 * 3600) :=
  ⟨by decide, time_new_conversion 1999 1 1 0 0 0 (by decide)⟩

/-- C6: the sequence of operations handed to the Container Writer over
any successful build is exactly: the stored `mimetype` entry, the
fixed container descriptor, one entry per `add_content`/`add_resource`
call in call order, the generated `nav.xhtml`, the generated
`content.opf`, and a flush — with the navigation document and
`content.opf` the last two entries, in that order. -/
theorem container_write_order (ops : List EpubOp) :
    (buildEpub ops).finish.trace =
      [ZipEvent.entry "mimetype" CompLevel.raw,
        ZipEvent.entry "META-INF/container.xml" CompLevel.high] ++
        ops.filterMap opEntry ++
        [ZipEvent.entry "nav.xhtml" CompLevel.high,
          ZipEvent.entry "content.opf" CompLevel.high, ZipEvent.flushEv] := by
  simp [buildEpub, Epub.finish, Epub.addResource, trace_foldl, Epub.new,
    List.append_assoc]

/-- C8: the toc nav emitted by `impl Display for Topic` coincides with
the specification's current-level algorithm on every entry sequence;
on the level sequence `[1,2,2,1,3,3,2]` the loop takes exactly the
branch sequence open→1, open→2, same→2, close→1, open→3, same→3,
close→2 followed by the close-all of the final level 2, producing the
explicit nesting below; and the landmarks nav contains exactly one
link per Title-reftype entry, in original order. -/
theorem toc_structure (cs : List ContentMeta) (h : ∀ i ∈ cs, 1 ≤ i.level) :
    tocGo cs 0 = tocSpecGo cs 0 ∧
      tocSteps [1, 2, 2, 1, 3, 3, 2] 0 =
        [TocStep.openTo 1, TocStep.openTo 2, TocStep.same 2, TocStep.closeTo 1,
          TocStep.openTo 3, TocStep.same 3, TocStep.closeTo 2] ∧
      tocGo levelSeqEntries 0 =
        "<ol><li><a href=\"\"></a><ol><li><a href=\"\"></a></li><li><a href=\"\"></a></li></ol></li><li><a href=\"\"></a><ol><ol><li><a href=\"\"></a></li><li><a href=\"\"></a></li></ol></li><li><a href=\"\"></a></li></ol></li></ol>" ∧
      landGo cs =
        String.join ((cs.filter (fun i => i.reftype == RefType.title)).map landmarkItem) :=
  ⟨tocGo_eq_spec cs 0, by decide, by decide, landGo_eq_filter cs⟩

/-- C7: after `finish()` on a package whose caller never supplied a
Navi reference type, the spine lists exactly the content entries in
insertion order (one `<itemref>` per `add_content` call), the manifest
lists one `<item>` per content entry then per resource entry, exactly
one manifest item carries the nav property, and no resource entry's
identifier appears among the spine's content identifiers. -/
theorem manifest_spine_invariants (ops : List EpubOp)
    (h : ops.all opNotNavi = true) :
    (Epub.finish (buildEpub ops)).contents = (buildEpub ops).contents ∧
      spineIdrefs (Epub.finish (buildEpub ops)) =
        ((Epub.finish (buildEpub ops)).contents).map
          (fun c => itemIdRender c.idNum) ∧
      (spineIdrefs (Epub.finish (buildEpub ops))).length =
        ops.countP isAddContent ∧
      manifestItems (Epub.finish (buildEpub ops)) =
        ((Epub.finish (buildEpub ops)).contents).map contentItem ++
          ((Epub.finish (buildEpub ops)).resources).map resourceItem ∧
      (manifestItems (Epub.finish (buildEpub ops))).countP
        (fun it => it.navProp) = 1 ∧
      ∀ r ∈ (Epub.finish (buildEpub ops)).resources,
        r.idNum ∉ ((Epub.finish (buildEpub ops)).contents).map
          (fun c => c.idNum) := by
  refine ⟨rfl, rfl, ?_, rfl, ?_, ?_⟩
  · show ((buildEpub ops).contents.map (fun c => itemIdRender c.idNum)).length = _
    rw [List.length_map]
    have := contents_length_foldl ops Epub.new
    simpa [buildEpub, Epub.new] using this
  · have hc := countNavi_contents ops h
    have hr := countNavi_resources ops h
    show (((buildEpub ops).contents).map contentItem ++
        (((buildEpub ops).resources ++
          ([⟨"nav.xhtml", .xhtml, .navi, (buildEpub ops).nextId⟩] :
            List ResourceMeta)).map
          resourceItem)).countP (fun it => it.navProp) = 1
    rw [List.map_append, List.countP_append, List.countP_append,
      List.countP_map, List.countP_map]
    simp only [Function.comp_def, contentItem, resourceItem]
    simp [hc, hr, resourceItem, List.countP_cons]
  · intro r hr hmem
    have hperm := idsPerm_finish ops
    have hnd : (idsOf (Epub.finish (buildEpub ops))).Nodup :=
      (hperm.nodup_iff).mpr (List.nodup_range _)
    rw [idsOf, List.nodup_append] at hnd
    exact hnd.2.2 hmem (List.mem_map_of_mem _ hr)

/-- Witness for C7 at a two-operation build (one content, one style
resource). -/
theorem manifest_spine_invariants_witness :
    (([EpubOp.addContent "a.xhtml" "A" .xhtml 1 .text,
        EpubOp.addResource "s.css" .css .style]).all opNotNavi = true) ∧
      ((Epub.finish (buildEpub [EpubOp.addContent "a.xhtml" "A" .xhtml 1 .text,
          EpubOp.addResource "s.css" .css .style])).contents =
        (buildEpub [EpubOp.addContent "a.xhtml" "A" .xhtml 1 .text,
          EpubOp.addResource "s.css" .css .style]).contents ∧
      spineIdrefs (Epub.finish (buildEpub
          [EpubOp.addContent "a.xhtml" "A" .xhtml 1 .text,
            EpubOp.addResource "s.css" .css .style])) =
        ((Epub.finish (buildEpub [EpubOp.addContent "a.xhtml" "A" .xhtml 1 .text,
            EpubOp.addResource "s.css" .css .style])).contents).map
          (fun c => itemIdRender c.idNum) ∧
      (spineIdrefs (Epub.finish (buildEpub
          [EpubOp.addContent "a.xhtml" "A" .xhtml 1 .text,
            EpubOp.addResource "s.css" .css .style]))).length =
        ([EpubOp.addContent "a.xhtml" "A" .xhtml 1 .text,
          EpubOp.addResource "s.css" .css .style]).countP isAddContent ∧
      manifestItems (Epub.finish (buildEpub
          [EpubOp.addContent "a.xhtml" "A" .xhtml 1 .text,
            EpubOp.addResource "s.css" .css .style])) =
        ((Epub.finish (buildEpub [EpubOp.addContent "a.xhtml" "A" .xhtml 1 .text,
            EpubOp.addResource "s.css" .css .style])).contents).map contentItem ++
          ((Epub.finish (buildEpub [EpubOp.addContent "a.xhtml" "A" .xhtml 1 .text,
            EpubOp.addResource "s.css" .css .style])).resources).map resourceItem ∧
      (manifestItems (Epub.finish (buildEpub
          [EpubOp.addContent "a.xhtml" "A" .xhtml 1 .text,
            EpubOp.addResource "s.css" .css .style]))).countP
        (fun it => it.navProp) = 1 ∧
      ∀ r ∈ (Epub.finish (buildEpub
          [EpubOp.addContent "a.xhtml" "A" .xhtml 1 .text,
            EpubOp.addResource "s.css" .css .style])).resources,
        r.idNum ∉ ((Epub.finish (buildEpub
            [EpubOp.addContent "a.xhtml" "A" .xhtml 1 .text,
              EpubOp.addResource "s.css" .css .style])).contents).map
          (fun c => c.idNum)) :=
  ⟨by decide, manifest_spine_invariants _ (by decide)⟩

/-- Witness for C8 at the seven-entry level sequence. -/
theorem toc_structure_witness :
    (∀ i ∈ levelSeqEntries, 1 ≤ i.level) ∧
      (tocGo levelSeqEntries 0 = tocSpecGo levelSeqEntries 0 ∧
        tocSteps [1, 2, 2, 1, 3, 3, 2] 0 =
          [TocStep.openTo 1, TocStep.openTo 2, TocStep.same 2, TocStep.closeTo 1,
            TocStep.openTo 3, TocStep.same 3, TocStep.closeTo 2] ∧
        tocGo levelSeqEntries 0 =
          "<ol><li><a href=\"\"></a><ol><li><a href=\"\"></a></li><li><a href=\"\"></a></li></ol></li><li><a href=\"\"></a><ol><ol><li><a href=\"\"></a></li><li><a href=\"\"></a></li></ol></li><li><a href=\"\"></a></li></ol></li></ol>" ∧
        landGo levelSeqEntries =
          String.join
            ((levelSeqEntries.filter (fun i => i.reftype == RefType.title)).map
              landmarkItem)) :=
  ⟨by decide, toc_structure levelSeqEntries (by decide)⟩

/-- C9: `escape` rewrites each character independently and in order
(`&`, `"`, `<`, `>` to their entity references, all else unchanged); a
string without those four characters is returned unchanged; and the
escaping is applied to the OPF title slot, the creator name and
reading form, the description, and the toc/landmark labels, while
entry names (hrefs) and the raw `dcterms:source` string are emitted
unescaped. -/
theorem escape_behavior (s t u nm ttl : String) (mt : MediaType) (rt : RefType)
    (lvl idn : Nat)
    (h : ∀ c ∈ t.data, c ≠ '&' ∧ c ≠ '"' ∧ c ≠ '<' ∧ c ≠ '>') :
    escape s = String.mk ((s.data.map escChar).flatten) ∧
      escape t = t ∧
      titleSlot (Epub.new.setTitle s) = escape s ∧
      authorBlock s u =
        "<dc:creator id=\"creator\">" ++ escape s ++
          "</dc:creator><meta refines=\"#creator\" property=\"role\" scheme=\"marc:relators\">aut</meta><meta refines=\"#creator\" property=\"file-as\">" ++
          escape u ++ "</meta>" ∧
      descriptionBlock s = "<dc:description>" ++ escape s ++ "</dc:description>" ∧
      sourceBlock s u =
        "<dc:identifier id=\"epub-id\">urn:uuid:" ++ s ++
          "</dc:identifier><meta property=\"dcterms:source\">" ++ u ++ "</meta>" ∧
      tocLink ⟨nm, ttl, mt, rt, lvl, idn⟩ =
        "<a href=\"" ++ nm ++ "\">" ++ escape ttl ++ "</a>" ∧
      landmarkItem ⟨nm, ttl, mt, rt, lvl, idn⟩ =
        "<li><a epub:type=\"titlepage\" href=\"" ++ nm ++ "\">" ++ escape ttl ++
          "</a></li>" := by
  obtain ⟨cs⟩ := t
  refine ⟨congrArg String.mk (escapeList_eq_join s.data), ?_, rfl, rfl, rfl, rfl, rfl, rfl⟩
  exact congrArg String.mk ((escapeList_eq_join cs).trans (join_map_escChar cs h))

/-- Witness for C9 at concrete strings. -/
theorem escape_behavior_witness :
    (∀ c ∈ "plain".data, c ≠ '&' ∧ c ≠ '"' ∧ c ≠ '<' ∧ c ≠ '>') ∧
      (escape "a&b" = String.mk (("a&b".data.map escChar).flatten) ∧
        escape "plain" = "plain" ∧
        titleSlot (Epub.new.setTitle "a&b") = escape "a&b" ∧
        authorBlock "a&b" "y<z" =
          "<dc:creator id=\"creator\">" ++ escape "a&b" ++
            "</dc:creator><meta refines=\"#creator\" property=\"role\" scheme=\"marc:relators\">aut</meta><meta refines=\"#creator\" property=\"file-as\">" ++
            escape "y<z" ++ "</meta>" ∧
        descriptionBlock "a&b" =
          "<dc:description>" ++ escape "a&b" ++ "</dc:description>" ∧
        sourceBlock "a&b" "y<z" =
          "<dc:identifier id=\"epub-id\">urn:uuid:" ++ "a&b" ++
            "</dc:identifier><meta property=\"dcterms:source\">" ++ "y<z" ++
            "</meta>" ∧
        tocLink ⟨"n.xhtml", "a>b", .xhtml, .text, 1, 0⟩ =
          "<a href=\"" ++ "n.xhtml" ++ "\">" ++ escape "a>b" ++ "</a>" ∧
        landmarkItem ⟨"n.xhtml", "a>b", .xhtml, .text, 1, 0⟩ =
          "<li><a epub:type=\"titlepage\" href=\"" ++ "n.xhtml" ++ "\">" ++
            escape "a>b" ++ "</a></li>") :=
  ⟨by decide, escape_behavior "a&b" "plain" "y<z" "n.xhtml" "a>b" .xhtml .text 1 0 (by decide)⟩

/-- Witness for C10 at a concrete one-resource package. -/
theorem mediaType_rendering_witness :
    ((⟨"img.gif", .gif, .image, 0⟩ : ResourceMeta) ∈
        (Epub.new.addResource "img.gif" .gif .image).resources) ∧
      ((⟨"img.gif", .gif, .image, 0⟩ : ResourceMeta).mediaType = .gif) ∧
      (mediaTypeStr .css = "text/css" ∧
        mediaTypeStr .xhtml = "application/xhtml+xml" ∧
        mediaTypeStr .jpg = "image/jpeg" ∧
        mediaTypeStr .png = "image/png" ∧
        mediaTypeStr .gif = "iamge/gif" ∧
        resourceItem ⟨"img.gif", .gif, .image, 0⟩ ∈
          manifestItems (Epub.new.addResource "img.gif" .gif .image) ∧
        (resourceItem ⟨"img.gif", .gif, .image, 0⟩).mediaType = "iamge/gif") :=
  ⟨by decide, rfl, mediaType_rendering _ _ (by decide) rfl⟩

end NarouEpub
